import Mathlib

/-
Verification development for the news_backend repository.

The development shallowly embeds the authentication core of the repository:
the account lockout bookkeeping and credential check from
src/models/author.model.js (shared verbatim by the embedded user model),
the login service from src/services/admin/user.service.js (mirrored by
loginAuthor in author.service.js), the admin login from
src/services/admin/admin.service.js, and the verifyJWT authorization
middleware.

Timestamps are millisecond epoch values modelled as Nat; JWT issued-at
values are whole seconds, as produced by the jsonwebtoken library.
Environment configuration values (process.env.MAX_LOGIN_ATTEMPTS,
process.env.LOCK_TIME) are optional strings, as every environment variable
is, and the JavaScript coercions applied to them by the source are modelled
explicitly where they occur.
-/

namespace NewsBackend

/-- Environment configuration: `process.env.MAX_LOGIN_ATTEMPTS` and
`process.env.LOCK_TIME`, each an optional string (environment variables are
strings when present, `undefined` otherwise). -/
structure Config where
  maxLoginAttempts : Option String
  lockTime : Option String
deriving DecidableEq, Repr

/-- One entry of the append-only `loginHistory` array of the account schema. -/
structure LoginEntry where
  device : String
  ipAddress : String
  timestamp : Nat
deriving DecidableEq, Repr

/-- Account record, the shape shared by the author and user mongoose schemas
in the repository (fields not touched by the authentication core are
omitted).  `password` holds the bcrypt digest; `passwordChangedAt`,
`lockUntil` and `lastActive` are millisecond timestamps; `refreshToken` is
the stored refresh token, absent when unset. -/
structure Account where
  id : Nat
  email : String
  role : String
  password : String
  passwordChangedAt : Option Nat
  loginAttempts : Nat
  lockUntil : Option Nat
  isVerified : Bool
  isActive : Bool
  isDeleted : Bool
  refreshToken : Option String
  lastActive : Option Nat
  loginHistory : List LoginEntry
deriving DecidableEq, Repr

/-- Model of the external bcrypt hasher (an external collaborator of the
repository, not repository code): the digest of a plaintext.  Modelled as an
injective tagging of the plaintext so that verification is equality of
digests. -/
def bcryptHash (plaintext : String) : String :=
  "bcrypt2b12:" ++ plaintext

/-- Model of `bcrypt.compare(candidate, digest)`. -/
def bcryptCompare (candidate digest : String) : Bool :=
  bcryptHash candidate == digest

/-- `comparePassword` instance method (author.model.js line 231):
`bcrypt.compare(candidatePassword, this.password)`. -/
def comparePassword (candidatePassword : String) (a : Account) : Bool :=
  bcryptCompare candidatePassword a.password

/-- `changedPasswordAfter` instance method (author.model.js lines 235-244):
when `passwordChangedAt` is set, compare the JWT issued-at (seconds) against
`parseInt(this.passwordChangedAt.getTime() / 1000, 10)`; for the
non-negative millisecond values involved, `parseInt` of the quotient is
truncation, i.e. Nat division.  Without `passwordChangedAt` it returns
false. -/
def changedPasswordAfter (a : Account) (JWTTimestamp : Nat) : Bool :=
  match a.passwordChangedAt with
  | some pca => decide (JWTTimestamp < pca / 1000)
  | none => false

/-- `isAccountLocked` instance method (author.model.js lines 259-261):
`this.lockUntil && this.lockUntil > Date.now()`.  A stored Date object is
truthy whatever its value, so the truthiness test is presence of
`lockUntil`. -/
def isAccountLocked (now : Nat) (a : Account) : Bool :=
  match a.lockUntil with
  | some t => decide (now < t)
  | none => false

/-- JavaScript comparison `n >= v` where `v` is an optional environment
string: `undefined` makes the comparison NaN and hence false; a string is
coerced with `Number`, and a string that does not denote a number yields NaN
and hence false.  (Only absent values and decimal numerals occur in the
claims; `Number` quirks on other strings are irrelevant here because the
source condition is disjoined with a truthy literal, see `lockTriggered`.) -/
def envGE (n : Nat) (v : Option String) : Bool :=
  match v with
  | none => false
  | some s =>
    match s.toInt? with
    | none => false
    | some m => decide ((n : Int) ≥ m)

/-- The guard of the lock branch in `incrementLoginAttempts`
(author.model.js line 268):
`this.loginAttempts + 1 >= process.env.MAX_LOGIN_ATTEMPTS || 5`.
JavaScript operator precedence parses this as
`(loginAttempts + 1 >= MAX_LOGIN_ATTEMPTS) || 5`, and the literal `5` is
truthy, so the disjunction holds whatever the left operand is. -/
def lockTriggered (loginAttempts : Nat) (maxLoginAttempts : Option String) : Bool :=
  envGE (loginAttempts + 1) maxLoginAttempts || decide ((5 : Int) ≠ 0)

/-- Numeric value of a list of decimal digit characters, accumulator
style; `none` as soon as a non-digit appears. -/
def decimalAux : List Char → Nat → Option Nat
  | [], acc => some acc
  | c :: cs, acc =>
    if c.isDigit then decimalAux cs (acc * 10 + (c.toNat - 48)) else none

/-- The numeric value the store obtains when casting a string to a date:
the value of a nonnegative decimal numeral, `none` (no valid date) for
anything else. -/
def strNumValue (s : String) : Option Nat :=
  match s.data with
  | [] => none
  | l => decimalAux l 0

/-- The value stored by the lock branch of `incrementLoginAttempts`
(author.model.js line 270):
`lockUntil: Date.now() + process.env.LOCK_TIME || 2 * 60 * 60 * 1000`,
parsed as `(Date.now() + LOCK_TIME) || 7200000`.
When `LOCK_TIME` is `undefined`, `Date.now() + undefined` is NaN, which is
falsy, so the stored value is the bare constant 7200000 — an absolute epoch
offset, not an offset from now.  When `LOCK_TIME` is a string, `+`
concatenates the decimal rendering of `Date.now()` with the string; the
result is nonempty hence truthy, and the store casts the numeric string to
its numeric value (a non-numeric result produces no valid date, modelled as
`none`). -/
def lockUntilValue (now : Nat) (lockTime : Option String) : Option Nat :=
  match lockTime with
  | none => some (2 * 60 * 60 * 1000)
  | some s => strNumValue (toString now ++ s)

/-- `incrementLoginAttempts` instance method (author.model.js lines
263-275): a no-op returning the document unchanged when the account is
locked; otherwise an update that increments `loginAttempts` and, when
`lockTriggered` holds (which is always), also sets `lockUntil` to
`lockUntilValue`. -/
def incrementLoginAttempts (now : Nat) (env : Config) (a : Account) : Account :=
  if isAccountLocked now a then a
  else
    let withInc := { a with loginAttempts := a.loginAttempts + 1 }
    if lockTriggered a.loginAttempts env.maxLoginAttempts then
      { withInc with lockUntil := lockUntilValue now env.lockTime }
    else withInc

/-- `resetLoginAttempts` instance method (author.model.js lines 277-281):
`$set: { loginAttempts: 0, lockUntil: null }`. -/
def resetLoginAttempts (a : Account) : Account :=
  { a with loginAttempts := 0, lockUntil := none }

/-- `recordLogin` instance method (author.model.js lines 247-257): append a
login-history entry and stamp `lastActive`; the subsequent `save` persists
exactly these modified paths. -/
def recordLogin (device ipAddress : String) (now : Nat) (a : Account) : Account :=
  { a with
    loginHistory := a.loginHistory ++ [⟨device, ipAddress, now⟩],
    lastActive := some now }

/-- The store lookup `findOne({ email, isActive: true })` used by
`findByCredentials` (author.model.js line 286): the activity flag is part of
the query filter, so an inactive account is indistinguishable from a missing
one. -/
def findOneActiveByEmail (db : List Account) (email : String) : Option Account :=
  db.find? (fun a => a.email == email && a.isActive)

/-- `updateOne`-style targeted update of the account store by id. -/
def updateById (db : List Account) (id : Nat) (f : Account → Account) : List Account :=
  db.map (fun a => if a.id == id then f a else a)

/-- Result of `findByCredentials`: the returned document (the in-memory
snapshot handed back to the caller), the account store after the side
effects, and how many times the bcrypt comparison ran. -/
structure CredResult where
  found : Option Account
  db : List Account
  hasherCalls : Nat
deriving DecidableEq, Repr

/-- `findByCredentials` static method (author.model.js lines 285-300):
look up by email with `isActive: true` in the filter; return null when
missing or locked (before any bcrypt work); on a wrong password run
`incrementLoginAttempts` and return null; on a match run
`resetLoginAttempts` and return the account. -/
def findByCredentials (db : List Account) (now : Nat) (env : Config)
    (email password : String) : CredResult :=
  match findOneActiveByEmail db email with
  | none => ⟨none, db, 0⟩
  | some a =>
    if isAccountLocked now a then ⟨none, db, 0⟩
    else if comparePassword password a then
      ⟨some a, updateById db a.id resetLoginAttempts, 1⟩
    else
      ⟨none, updateById db a.id (incrementLoginAttempts now env), 1⟩

/-- Access token payload minted by `generateAccessToken` (author.model.js
lines 213-223): account id, email, role; the jsonwebtoken library adds the
issued-at claim in whole seconds. -/
structure AccessToken where
  id : Nat
  email : String
  role : String
  iat : Nat
deriving DecidableEq, Repr

/-- Refresh token payload minted by `generateRefreshToken` (author.model.js
lines 225-229): the account id only. -/
structure RefreshToken where
  id : Nat
deriving DecidableEq, Repr

def generateAccessToken (a : Account) (now : Nat) : AccessToken :=
  ⟨a.id, a.email, a.role, now / 1000⟩

def generateRefreshToken (a : Account) : RefreshToken :=
  ⟨a.id⟩

/-- Serialized form of a refresh token as stored in the `refreshToken`
field. -/
def renderRefreshToken (t : RefreshToken) : String :=
  "refresh:" ++ toString t.id

/-- Outcome of the login service: either the account view with the freshly
minted token pair, or a thrown ApiError modelled by its HTTP status and
message. -/
inductive LoginOutcome where
  | ok (user : Account) (access : AccessToken) (refresh : RefreshToken)
  | err (status : Nat) (message : String)
deriving DecidableEq, Repr

/-- `loginUser` service (user.service.js lines 227-280; `loginAuthor` in
author.service.js is line-for-line the same logic): delegate to
`findByCredentials`; a null result throws 401 "Invalid email or password";
then re-check `isActive` (403) and check `isVerified` (403); on success
record the login history entry, mint both tokens, persist the refresh
token, and return the account with the token pair. -/
def loginUser (db : List Account) (now : Nat) (env : Config)
    (email password device ipAddress : String) : LoginOutcome × List Account :=
  let r := findByCredentials db now env email password
  match r.found with
  | none => (.err 401 "Invalid email or password", r.db)
  | some u =>
    if !u.isActive then (.err 403 "Account is inactive", r.db)
    else if !u.isVerified then (.err 403 "Please verify your account first", r.db)
    else
      let db1 := updateById r.db u.id (recordLogin device ipAddress now)
      let access := generateAccessToken u now
      let refresh := generateRefreshToken u
      let db2 := updateById db1 u.id
        (fun a => { a with refreshToken := some (renderRefreshToken refresh) })
      (.ok u access refresh, db2)

/-- Outcome of `adminLogin`: admin data with a token pair, or a thrown
ApiError. -/
inductive AdminLoginOutcome where
  | ok (admin : Account) (access refresh : String)
  | err (status : Nat) (message : String)
deriving DecidableEq, Repr

/-- Modelled from the spec: `generateAdminAccessAndRefreshTokens` lives in
src/utils/tokenUtils.js, which is absent from the repository snapshot; per
the Token Issuer contract it mints an access and a refresh token bound to
the admin identity and persists the refresh token server-side. -/
def generateAdminTokens (adminId : Nat) : String × String :=
  ("adminaccess:" ++ toString adminId, "adminrefresh:" ++ toString adminId)

/-- `adminLogin` service (admin.service.js lines 235-263): look up by email
(no activity filter), throw 401 "Invalid email or password" when missing or
when the bcrypt comparison fails, and only on success mint tokens and
persist the refresh token.  The admin mongoose model is absent from the
snapshot; per the spec the admin shares the account shape, so the same
`Account` structure is used.  No branch of the service touches
`loginAttempts` or `lockUntil`. -/
def adminLogin (db : List Account) (email password : String) :
    AdminLoginOutcome × List Account :=
  match db.find? (fun a => a.email == email) with
  | none => (.err 401 "Invalid email or password", db)
  | some admin =>
    if bcryptCompare password admin.password then
      let t := generateAdminTokens admin.id
      (.ok admin t.1 t.2,
        updateById db admin.id (fun a => { a with refreshToken := some t.2 }))
    else (.err 401 "Invalid email or password", db)

/-- Outcome of the `verifyJWT` middleware: the loaded account attached to
the request, or a thrown ApiError. -/
inductive AuthResult where
  | authorized (a : Account)
  | unauthorized (status : Nat) (message : String)
deriving DecidableEq, Repr

/-- The store lookup `findById` used by `verifyJWT`. -/
def findById (db : List Account) (id : Nat) : Option Account :=
  db.find? (fun a => a.id == id)

/-- Decision logic of the `verifyJWT` middleware (author auth middleware,
after `jwt.verify` has succeeded and produced the decoded claims id and
iat; token presence, signature and expiry checking are the external
jsonwebtoken library): load the account by id (401 when missing), reject a
soft-deleted account (401), reject when `changedPasswordAfter` holds for
the token issued-at (401), otherwise authorize. -/
def verifyJWT (db : List Account) (id : Nat) (iat : Nat) : AuthResult :=
  match findById db id with
  | none => .unauthorized 401 "Unauthorized - Author not found"
  | some author =>
    if author.isDeleted then
      .unauthorized 401 "Unauthorized - Account has been deleted"
    else if changedPasswordAfter author iat then
      .unauthorized 401 "Unauthorized - Password changed recently. Please login again"
    else .authorized author

/-- Names for the five login gate failures of the specification. -/
inductive GateFailure where
  | notFound
  | locked
  | badPassword
  | inactive
  | unverified
deriving DecidableEq, Repr

/-- Gate order exactly as the spec words it (section 4.4): account exists by
email, then not locked, then password verifies, then isActive, then
isVerified, first failing gate winning.  This definition follows the spec
words and exists only to be compared against the implementation. -/
def loginGatesSpec (db : List Account) (now : Nat) (email password : String) :
    Option GateFailure :=
  match db.find? (fun a => a.email == email) with
  | none => some .notFound
  | some a =>
    if isAccountLocked now a then some .locked
    else if !(comparePassword password a) then some .badPassword
    else if !a.isActive then some .inactive
    else if !a.isVerified then some .unverified
    else none

/-- Gate order as the code implements it: existence and `isActive` form one
combined first gate (the `findOne({ email, isActive: true })` filter), then
the lock check, then the password, then `isVerified`; no separate inactive
gate is reachable. -/
def loginGatesImpl (db : List Account) (now : Nat) (email password : String) :
    Option GateFailure :=
  match findOneActiveByEmail db email with
  | none => some .notFound
  | some a =>
    if isAccountLocked now a then some .locked
    else if !(comparePassword password a) then some .badPassword
    else if !a.isVerified then some .unverified
    else none

/-! ### Concrete fixtures used by witnesses and counterexamples -/

/-- Configuration with both lockout variables absent (the default unset
environment). -/
def envDefault : Config :=
  ⟨none, none⟩

/-- A concrete current time: an epoch-millisecond value in 2025. -/
def now1 : Nat :=
  1760000000000

/-- A fresh, active, verified author account with no prior failed
attempts. -/
def acct1 : Account :=
  { id := 1
    email := "ada@example.com"
    role := "author"
    password := bcryptHash "hunter22pass"
    passwordChangedAt := none
    loginAttempts := 0
    lockUntil := none
    isVerified := true
    isActive := true
    isDeleted := false
    refreshToken := none
    lastActive := none
    loginHistory := [] }

/-- The same account while locked: `lockUntil` one million ms past `now1`. -/
def acctLocked : Account :=
  { acct1 with lockUntil := some (now1 + 1000000) }

/-- The same account soft-deleted but still active and verified. -/
def acctDeleted : Account :=
  { acct1 with isDeleted := true }

/-- The same account deactivated. -/
def acctInactive : Account :=
  { acct1 with isActive := false }

/-- The same account with a password change recorded at epoch millisecond
10500 (10.5 seconds). -/
def acctPca : Account :=
  { acct1 with passwordChangedAt := some 10500 }

/-- The same account with stale lockout bookkeeping: three failed attempts
and an expired lock. -/
def acctStale : Account :=
  { acct1 with loginAttempts := 3, lockUntil := some 5 }

/-! ### Helper lemmas -/

/-- Any account surfaced by the credentials lookup passed the
`isActive: true` query filter. -/
theorem findOneActiveByEmail_isActive (db : List Account) (email : String)
    (a : Account) (h : findOneActiveByEmail db email = some a) :
    a.isActive = true := by
  unfold findOneActiveByEmail at h
  have hp := List.find?_some h
  simp only [Bool.and_eq_true] at hp
  exact hp.2

/-- Characterization of a successful `findByCredentials` call: the lookup
found the returned account, it was not locked, the password matched, and
the store was updated with `resetLoginAttempts` on that account, with one
hasher call. -/
theorem findByCredentials_success (db : List Account) (now : Nat) (env : Config)
    (email password : String) (u : Account)
    (h : (findByCredentials db now env email password).found = some u) :
    findOneActiveByEmail db email = some u ∧
    isAccountLocked now u = false ∧
    comparePassword password u = true ∧
    (findByCredentials db now env email password).db =
      updateById db u.id resetLoginAttempts ∧
    (findByCredentials db now env email password).hasherCalls = 1 := by
  unfold findByCredentials at *
  cases hf : findOneActiveByEmail db email with
  | none => rw [hf] at h; simp at h
  | some a =>
    rw [hf] at h
    by_cases hl : isAccountLocked now a
    · simp [hl] at h
    · by_cases hc : comparePassword password a
      · simp [hl, hc] at h
        subst h
        simp [hl, hc]
      · simp [hl, hc] at h

/-! ### Claim theorems -/

/-- Claim C1 (code bug, evaluated at the failing input): with the lockout
configuration absent, an unlocked account with loginAttempts = 0 suffers a
failed attempt; the counter does increment by one, but the lock branch
fires immediately (precedence makes the guard always true even though
0 + 1 < 5), storing lockUntil = 7200000 — a 1970 epoch offset, so the
account is still not locked afterwards and never transitions to
Locked(now + lockDuration) at the threshold; and the admin login path
performs no counter update at all on a failed attempt. -/
theorem c1_lockout_threshold_misfires :
    incrementLoginAttempts now1 envDefault acct1 =
      { acct1 with loginAttempts := 1, lockUntil := some 7200000 } ∧
    isAccountLocked now1 (incrementLoginAttempts now1 envDefault acct1) = false ∧
    (adminLogin [acct1] "ada@example.com" "wrongpw").2 = [acct1] ∧
    (adminLogin [acct1] "ada@example.com" "wrongpw").1 =
      .err 401 "Invalid email or password" :=
  ⟨rfl, rfl, rfl, rfl⟩

/-- Claim C2 (code bug, evaluated at the failing input): when the failed
attempt at `now1` with absent configuration sets lockUntil, the stored
value is the bare constant 7200000 — strictly in the past, not
now + 7200000; and with LOCK_TIME = "60000" present, JavaScript string
concatenation stores the concatenated numeral, not now + 60000. -/
theorem c2_lockUntil_set_in_past :
    (incrementLoginAttempts now1 envDefault acct1).lockUntil = some 7200000 ∧
    7200000 < now1 ∧
    (incrementLoginAttempts now1 envDefault acct1).lockUntil ≠
      some (now1 + 2 * 60 * 60 * 1000) ∧
    lockUntilValue now1 (some "60000") = some 176000000000060000 ∧
    (176000000000060000 : Nat) ≠ now1 + 60000 := by
  refine ⟨rfl, by norm_num [now1], by decide, rfl, by norm_num [now1]⟩

/-- Claim C3 (code bug, evaluated at the failing input): a soft-deleted
account that is still active and verified logs in with the correct
password and receives the access / refresh token pair, because neither the
`findOne({ email, isActive: true })` filter nor the login service ever
consults `isDeleted`. -/
theorem c3_soft_deleted_account_receives_tokens :
    acctDeleted.isDeleted = true ∧
    (loginUser [acctDeleted] now1 envDefault "ada@example.com" "hunter22pass"
        "dev" "ip").1 =
      .ok acctDeleted (generateAccessToken acctDeleted now1)
        (generateRefreshToken acctDeleted) :=
  ⟨rfl, rfl⟩

/-- Claim C6 (confirmed): a login attempt against an account whose lookup
succeeds but whose lock is still in the future is rejected (null result)
with zero invocations of the bcrypt comparison, whatever the submitted
password. -/
theorem c6_locked_account_rejected_without_hasher (db : List Account)
    (now : Nat) (env : Config) (email password : String) (a : Account)
    (hfind : findOneActiveByEmail db email = some a)
    (hlock : isAccountLocked now a = true) :
    (findByCredentials db now env email password).found = none ∧
    (findByCredentials db now env email password).hasherCalls = 0 := by
  unfold findByCredentials
  rw [hfind]
  simp [hlock]

/-- Witness for C6 at a concrete locked account and the correct password. -/
theorem c6_witness :
    findOneActiveByEmail [acctLocked] "ada@example.com" = some acctLocked ∧
    isAccountLocked now1 acctLocked = true ∧
    (findByCredentials [acctLocked] now1 envDefault "ada@example.com"
        "hunter22pass").found = none ∧
    (findByCredentials [acctLocked] now1 envDefault "ada@example.com"
        "hunter22pass").hasherCalls = 0 := by
  refine ⟨rfl, by decide, ?_⟩
  have := c6_locked_account_rejected_without_hasher [acctLocked] now1 envDefault
    "ada@example.com" "hunter22pass" acctLocked rfl (by decide)
  exact this

/-- Claim C9 (confirmed): while the account is locked,
`incrementLoginAttempts` returns the document unchanged — every field,
including loginAttempts and lockUntil, is left as it was. -/
theorem c9_increment_is_noop_while_locked (now : Nat) (env : Config)
    (a : Account) (h : isAccountLocked now a = true) :
    incrementLoginAttempts now env a = a := by
  simp [incrementLoginAttempts, h]

/-- Witness for C9 at a concrete locked account. -/
theorem c9_witness :
    isAccountLocked now1 acctLocked = true ∧
    incrementLoginAttempts now1 envDefault acctLocked = acctLocked :=
  ⟨by decide, c9_increment_is_noop_while_locked now1 envDefault acctLocked (by decide)⟩

/-- Claim C10 (confirmed): when `passwordChangedAt` is unset,
`changedPasswordAfter` is false for every token timestamp, and `verifyJWT`
never rejects such an account for password-change reasons. -/
theorem c10_no_password_change_never_rejected (db : List Account)
    (id iat : Nat) (a : Account) (hfind : findById db id = some a)
    (hpca : a.passwordChangedAt = none) :
    changedPasswordAfter a iat = false ∧
    verifyJWT db id iat ≠
      .unauthorized 401
        "Unauthorized - Password changed recently. Please login again" := by
  have hcpa : changedPasswordAfter a iat = false := by
    simp [changedPasswordAfter, hpca]
  refine ⟨hcpa, ?_⟩
  unfold verifyJWT
  rw [hfind]
  by_cases hd : a.isDeleted <;> simp [hd, hcpa]

/-- Witness for C10 at a concrete account with no recorded password
change. -/
theorem c10_witness :
    changedPasswordAfter acct1 0 = false ∧
    verifyJWT [acct1] 1 0 ≠
      .unauthorized 401
        "Unauthorized - Password changed recently. Please login again" :=
  c10_no_password_change_never_rejected [acct1] 1 0 acct1 rfl rfl

/-- Claim C7 (confirmed): whenever the login service succeeds, the stored
account record ends with loginAttempts = 0 and lockUntil cleared,
whatever the prior counter value and lock state (the reset runs inside
findByCredentials, and the later history / refresh-token saves do not
touch the lockout fields). -/
theorem c7_success_resets_lockout (db : List Account) (now : Nat)
    (env : Config) (email password device ipAddress : String) (u : Account)
    (acc : AccessToken) (refr : RefreshToken)
    (h : (loginUser db now env email password device ipAddress).1 =
      .ok u acc refr) :
    ∀ x ∈ (loginUser db now env email password device ipAddress).2,
      x.id = u.id → x.loginAttempts = 0 ∧ x.lockUntil = none := by
  simp only [loginUser] at h ⊢
  cases hf : (findByCredentials db now env email password).found with
  | none => rw [hf] at h; simp at h
  | some a =>
    rw [hf] at h
    have hs := findByCredentials_success db now env email password a hf
    have hact : a.isActive = true :=
      findOneActiveByEmail_isActive db email a hs.1
    by_cases hv : a.isVerified
    · simp [hact, hv] at h ⊢
      obtain ⟨h1, h2, h3⟩ := h
      subst h1
      rw [hs.2.2.2.1]
      intro x hx hid
      simp only [updateById, List.map_map, List.mem_map, Function.comp] at hx
      obtain ⟨y, hy, rfl⟩ := hx
      by_cases hyid : y.id = a.id
      · simp [hyid, resetLoginAttempts, recordLogin]
      · simp [hyid] at hid
    · simp [hact, hv] at h

/-- The stored record after the successful login of the witness below. -/
def acctStaleFinal : Account :=
  { acctStale with
    loginAttempts := 0
    lockUntil := none
    refreshToken := some "refresh:1"
    lastActive := some now1
    loginHistory := [⟨"dev", "ip", now1⟩] }

/-- Witness for C7: a concrete account with three stale failed attempts
and an expired lock logs in successfully and its stored record ends with
the counter zeroed and the lock cleared. -/
theorem c7_witness :
    acctStaleFinal.loginAttempts = 0 ∧ acctStaleFinal.lockUntil = none :=
  c7_success_resets_lockout [acctStale] now1 envDefault "ada@example.com"
    "hunter22pass" "dev" "ip" acctStale
    (generateAccessToken acctStale now1) (generateRefreshToken acctStale) rfl
    acctStaleFinal (by decide) rfl

/-- Claim C4 counterexample: an AccountLocked gate failure (locked account,
correct password) and an InvalidCredentials gate failure (unlocked account,
wrong password) surface as the identical error value, so the two reasons
are not distinct as the claim requires. -/
theorem c4_counterexample :
    (loginUser [acctLocked] now1 envDefault "ada@example.com" "hunter22pass"
        "d" "i").1 = .err 401 "Invalid email or password" ∧
    (loginUser [acct1] now1 envDefault "ada@example.com" "wrongpw"
        "d" "i").1 = .err 401 "Invalid email or password" :=
  ⟨rfl, rfl⟩

/-- Claim C4 as amended: every failure surfaced by findByCredentials
(unknown email, inactive account, locked account, wrong password) maps to
the single 401 "Invalid email or password" error; only the unverified gate
yields a distinct 403 error; the service-level inactive error is
unreachable. -/
theorem c4_amended_error_collapse (db : List Account) (now : Nat)
    (env : Config) (email password device ipAddress : String) :
    ((loginUser db now env email password device ipAddress).1 ≠
      .err 403 "Account is inactive") ∧
    ((findByCredentials db now env email password).found = none →
      (loginUser db now env email password device ipAddress).1 =
        .err 401 "Invalid email or password") ∧
    (∀ u, (findByCredentials db now env email password).found = some u →
      u.isVerified = false →
      (loginUser db now env email password device ipAddress).1 =
        .err 403 "Please verify your account first") := by
  simp only [loginUser]
  cases hf : (findByCredentials db now env email password).found with
  | none => simp
  | some a =>
    have hact : a.isActive = true :=
      findOneActiveByEmail_isActive db email a
        (findByCredentials_success db now env email password a hf).1
    by_cases hv : a.isVerified
    · simp [hact, hv]
    · simp [hact, hv]

/-- Witness for the amended C4 at a concrete unknown email. -/
theorem c4_amended_witness :
    (loginUser [] now1 envDefault "nobody@example.com" "pw" "d" "i").1 =
      .err 401 "Invalid email or password" :=
  (c4_amended_error_collapse [] now1 envDefault "nobody@example.com" "pw"
    "d" "i").2.1 rfl

/-- Claim C5 counterexample: for an inactive, unlocked account and a wrong
password, the gate order of the claim reaches and fails the password gate
(gates one and two pass, so the hasher is consumed), while the
implementation rejects already at the lookup — the bcrypt comparison never
runs and the store is untouched — because isActive is folded into the very
first gate rather than evaluated after the password gate. -/
theorem c5_counterexample :
    loginGatesSpec [acctInactive] now1 "ada@example.com" "wrongpw" =
      some .badPassword ∧
    (findByCredentials [acctInactive] now1 envDefault "ada@example.com"
        "wrongpw").hasherCalls = 0 ∧
    (findByCredentials [acctInactive] now1 envDefault "ada@example.com"
        "wrongpw").found = none ∧
    (findByCredentials [acctInactive] now1 envDefault "ada@example.com"
        "wrongpw").db = [acctInactive] :=
  ⟨rfl, rfl, rfl, rfl⟩

/-- Claim C5 as amended: the implemented gate order is account-exists-and-
isActive as one combined lookup filter, then not-locked, then password,
then isVerified, the first failure short-circuiting: the hasher runs
exactly when the lookup succeeds and the account is unlocked, success
occurs exactly when every gate passes, and no separate inactive gate is
reachable. -/
theorem c5_amended_gate_order (db : List Account) (now : Nat) (env : Config)
    (email password device ipAddress : String) :
    ((findByCredentials db now env email password).hasherCalls = 0 ↔
      (loginGatesImpl db now email password = some .notFound ∨
        loginGatesImpl db now email password = some .locked)) ∧
    ((loginUser db now env email password device ipAddress).1 =
        .err 403 "Please verify your account first" ↔
      loginGatesImpl db now email password = some .unverified) ∧
    ((∃ u acc refr,
        (loginUser db now env email password device ipAddress).1 =
          .ok u acc refr) ↔
      loginGatesImpl db now email password = none) ∧
    loginGatesImpl db now email password ≠ some .inactive := by
  simp only [loginUser, findByCredentials, loginGatesImpl]
  cases hf : findOneActiveByEmail db email with
  | none => simp
  | some a =>
    have hact : a.isActive = true :=
      findOneActiveByEmail_isActive db email a hf
    by_cases hl : isAccountLocked now a
    · simp [hl]
    · by_cases hc : comparePassword password a
      · by_cases hv : a.isVerified
        · simp [hl, hc, hact, hv]
        · simp [hl, hc, hact, hv]
      · simp [hl, hc]

/-- Witness for the amended C5 at a concrete locked account: zero hasher
calls. -/
theorem c5_amended_witness :
    (findByCredentials [acctLocked] now1 envDefault "ada@example.com"
      "pw").hasherCalls = 0 :=
  ((c5_amended_gate_order [acctLocked] now1 envDefault "ada@example.com"
    "pw" "d" "i").1).mpr (Or.inr rfl)

/-- Claim C8 counterexample: a token with iat = 10 seconds was issued at
epoch millisecond 10000, strictly before the recorded password change at
epoch millisecond 10500, yet verifyJWT authorizes it, because the
comparison truncates passwordChangedAt to whole seconds. -/
theorem c8_counterexample :
    (10 : Nat) * 1000 < 10500 ∧
    acctPca.passwordChangedAt = some 10500 ∧
    changedPasswordAfter acctPca 10 = false ∧
    verifyJWT [acctPca] 1 10 = .authorized acctPca :=
  ⟨by norm_num, rfl, rfl, rfl⟩

/-- Claim C8 as amended: for a non-deleted account that the lookup finds,
verifyJWT rejects the token for password-change reasons exactly when
passwordChangedAt is set and the token iat (whole seconds) is strictly
below passwordChangedAt truncated to whole seconds; at or after that
truncated second the token is never rejected for this reason. -/
theorem c8_amended_second_truncation (db : List Account) (id iat : Nat)
    (a : Account) (hfind : findById db id = some a)
    (hdel : a.isDeleted = false) :
    (verifyJWT db id iat =
        .unauthorized 401
          "Unauthorized - Password changed recently. Please login again" ↔
      ∃ p, a.passwordChangedAt = some p ∧ iat < p / 1000) := by
  unfold verifyJWT
  rw [hfind]
  cases hp : a.passwordChangedAt with
  | none => simp [changedPasswordAfter, hp, hdel]
  | some p =>
    by_cases hlt : iat < p / 1000
    · simp [changedPasswordAfter, hp, hdel, hlt]
    · simp [changedPasswordAfter, hp, hdel, hlt]

/-- Witness for the amended C8: iat = 9 with the password changed at epoch
millisecond 10500 (truncated second 10) is rejected. -/
theorem c8_amended_witness :
    verifyJWT [acctPca] 1 9 =
      .unauthorized 401
        "Unauthorized - Password changed recently. Please login again" :=
  (c8_amended_second_truncation [acctPca] 1 9 acctPca rfl rfl).mpr
    ⟨10500, rfl, by norm_num⟩

end NewsBackend
